import Mathlib

/-!
# openvrvisualizer: per-device render-model state machine and camera angle helpers

A shallow embedding of `src/main.cc`.

* `float` values are taken as exact rationals (`ℚ`): no rounding, no NaN, no infinities.
* A C pointer that is only tested against null and dereferenced is an `Option`.
* `GLuint` is a natural number below `2 ^ 32`; `(GLuint)-1` is `4294967295`.
* Calls into the VR runtime and into OpenGL are recorded, in program order, as a list of
  `Event`s; what those calls answer is an input of the embedded function (`Env`).
-/

namespace OpenVRVisualizer

/-! ## Camera angle helpers (`clampPitch`, `clampYaw`) -/

/-- Smallest value of a 32-bit `int`. -/
def INT_MIN : Int := -2147483648

/-- Largest value of a 32-bit `int`. -/
def INT_MAX : Int := 2147483647

/-- Keeps an `int` result that is representable, `none` for signed overflow. -/
def checkedInt (z : Int) : Option Int :=
  if INT_MIN ≤ z ∧ z ≤ INT_MAX then some z else none

/-- The conversion `(int)temp`: the fractional part is discarded (rounding toward zero);
the behaviour is undefined (`none`) when the truncated value is not representable. -/
def floatToInt (temp : ℚ) : Option Int :=
  checkedInt (Int.tdiv temp.num temp.den)

/-- Source: `float clampPitch(float p)`, main.cc line 79. -/
def clampPitch (p : ℚ) : ℚ :=
  if p > 89 then 89 else (if p < -89 then -89 else p)

/-- Source: `float clampYaw(float y)`, main.cc line 85.
`temp = (y + 180.0f) / 360.0f; return y - ((int)temp - (temp < 0.0f ? 1 : 0)) * 360.0f;` -/
def clampYaw (y : ℚ) : Option ℚ :=
  let temp : ℚ := (y + 180) / 360
  match floatToInt temp with
  | none => none
  | some t =>
    match checkedInt (t - (if temp < 0 then 1 else 0)) with
    | none => none
    | some k => some (y - (k : ℚ) * 360)

/-- Source: `const float sensitivity = 0.001f;`, main.cc line 249. -/
def sensitivity : ℚ := 1 / 1000

/-- Source: `int hmd_w = 2560;`, main.cc line 209. -/
def hmd_w : Int := 2560

/-- Source: `#define CTR_X (hmd_w / 2)`. -/
def CTR_X : Int := Int.tdiv hmd_w 2

/-- Source: main.cc lines 281 and 284, one mouse-motion event with `event.motion.x = mx`:
`deltaX = (float)event.motion.x - CTR_X; yaw = clampYaw(yaw + sensitivity * deltaX);` -/
def yawUpdate (yaw : ℚ) (mx : Int) : Option ℚ :=
  let deltaX : ℚ := (mx : ℚ) - (CTR_X : ℚ)
  clampYaw (yaw + sensitivity * deltaX)

/-- The yaw after a sequence of mouse-motion events, oldest first. -/
def accumulateYaw : ℚ → List Int → Option ℚ
  | yaw, [] => some yaw
  | yaw, mx :: rest =>
    match yawUpdate yaw mx with
    | none => none
    | some yaw1 => accumulateYaw yaw1 rest

/-- The inputs of `clampYaw` on which its `int` arithmetic is defined: the quotient
`(y + 180) / 360` lies strictly between `INT_MIN` and `INT_MAX + 1`, so that both the
conversion `(int)temp` and the subtraction of `1` for a negative quotient stay in `int`. -/
def yawInIntRange (y : ℚ) : Prop :=
  (-2147483648 : ℚ) < (y + 180) / 360 ∧ (y + 180) / 360 < 2147483648

/-! ## Data model of the per-device state machine -/

/-- The value `(GLuint)-1` that `mTexture`, `mBuffer` and `elementbuffer` start with. -/
def GLuint_MAX : Nat := 4294967295

/-- Source: `vr::VRRenderModelError_None`, the only error code the program compares against. -/
def VRRenderModelError_None : Nat := 0

/-- The fields of `vr::RenderModel_t` that `Draw` reads (the vertex and index arrays are
passed to OpenGL unread). -/
structure RenderModel_t where
  unVertexCount : Nat
  unTriangleCount : Nat
  diffuseTextureId : Int
deriving DecidableEq

/-- The fields of `vr::RenderModel_TextureMap_t` that `Draw` reads. -/
structure RenderModel_TextureMap_t where
  unWidth : Nat
  unHeight : Nat
deriving DecidableEq

/-- Source: `vr::HmdMatrix34_t`, `float m[3][4]`. -/
structure HmdMatrix34_t where
  m : Fin 3 → Fin 4 → ℚ

/-- The fields of `vr::TrackedDevicePose_t` that the program reads. -/
structure TrackedDevicePose_t where
  mDeviceToAbsoluteTracking : HmdMatrix34_t
  bPoseIsValid : Bool

/-- Source: `vr::ETrackedDeviceClass`. -/
inductive ETrackedDeviceClass where
  | TrackedDeviceClass_Invalid
  | TrackedDeviceClass_HMD
  | TrackedDeviceClass_Controller
  | TrackedDeviceClass_GenericTracker
  | TrackedDeviceClass_TrackingReference
  | TrackedDeviceClass_DisplayRedirect
deriving DecidableEq

/-- Source: `vec3_t`, three floats. -/
structure vec3_t where
  x : ℚ
  y : ℚ
  z : ℚ
deriving DecidableEq

/-- Source: `struct OnScreenObject`, main.cc lines 91-99, with the member initialisers as
defaults. The member `ctx` (the runtime the calls go to) is the same for every object and
is represented by the `Env` argument of the member functions. -/
structure OnScreenObject where
  loadingRenderModel : Bool := false
  loadingTexture : Bool := false
  renderModel : Option RenderModel_t := none
  textureMap : Option RenderModel_TextureMap_t := none
  idx : Int := -1
  mTexture : Nat := 4294967295
  mBuffer : Nat := 4294967295
  elementbuffer : Nat := 4294967295
deriving DecidableEq

/-- A call the program makes to the VR runtime, to OpenGL or to `std::cout`. -/
inductive Event where
  | GetStringTrackedDeviceProperty (idx : Int)
  | LoadRenderModel_Async (name : String)
  | LoadTexture_Async (textureId : Int)
  | GetTrackedDeviceClass
  | cout (text : String)
  | glGenBuffers (n : Nat)
  | glBindBuffer (target : String) (buffer : Nat)
  | glBufferData (target : String) (size : Nat) (usage : String)
  | glGenTextures (n : Nat)
  | glBindTexture (target : String) (texture : Nat)
  | glTexImage2D (width height : Nat)
  | glGenerateMipmap (target : String)
  | glTexParameteri (pname param : String)
  | glGetFloatv (pname : String)
  | glTexParameterf (pname : String) (param : ℚ)
  | glGetUniformLocation (program : Nat) (name : String)
  | glGetAttribLocation (program : Nat) (name : String)
  | glUniformMatrix4fv (location : Int) (pose : HmdMatrix34_t)
  | glUniform4f (location : Int) (v0 v1 v2 v3 : ℚ)
  | glEnableVertexAttribArray (index : Int)
  | glVertexAttribPointer (index : Int) (size : Nat) (stride : Nat) (pointer : Nat)
  | glUniform1i (location : Int) (v0 : Int)
  | glActiveTexture (texture : String)
  | glDrawElements (count : Nat)

/-- The loader requests `LoadRenderModel_Async`. -/
def Event.isMeshRequest : Event → Bool
  | .LoadRenderModel_Async _ => true
  | _ => false

/-- The loader requests `LoadTexture_Async`. -/
def Event.isTextureRequest : Event → Bool
  | .LoadTexture_Async _ => true
  | _ => false

/-- Calls into OpenGL. -/
def Event.isGL : Event → Bool
  | .GetStringTrackedDeviceProperty _ => false
  | .LoadRenderModel_Async _ => false
  | .LoadTexture_Async _ => false
  | .GetTrackedDeviceClass => false
  | .cout _ => false
  | _ => true

/-- The calls that create a GPU object name: `glGenBuffers` and `glGenTextures`. -/
def Event.isGen : Event → Bool
  | .glGenBuffers _ => true
  | .glGenTextures _ => true
  | _ => false

/-- The indexed draw call `glDrawElements`. -/
def Event.isDrawElements : Event → Bool
  | .glDrawElements _ => true
  | _ => false

/-- What one `Load..._Async` call answers: the returned error code, and what it stored
through its out-pointer (`none`: nothing stored; `some p`: the pointer `p`, possibly null). -/
structure AsyncResult (α : Type) where
  error : Nat
  written : Option (Option α)

/-- The value of the out-pointer variable after the call. -/
def AsyncResult.store {α : Type} (r : AsyncResult α) (old : Option α) : Option α :=
  match r.written with
  | none => old
  | some p => p

/-- Everything the VR runtime and OpenGL answer during one call of `Draw`: the render-model
name of the device, the answers of the two loader calls, the object names `glGenBuffers`
and `glGenTextures` hand out, the value read by `glGetFloatv`, and the uniform and attribute
locations. An answer is delivered during the call that asks for it. -/
structure Env where
  renderModelName : String
  loadRenderModel : AsyncResult RenderModel_t
  loadTexture : AsyncResult RenderModel_TextureMap_t
  genElementbuffer : Nat
  genBuffer : Nat
  genTexture : Nat
  fLargest : ℚ
  modelLoc : Int
  colorLoc : Int
  aNormLoc : Int
  aPosLoc : Int
  texLoc : Int
  textureLoc : Int

/-! ## `OnScreenObject` member functions -/

/-- Source: `OnScreenObject::LoadRenderModel`, main.cc lines 101-115. -/
def LoadRenderModel (s : OnScreenObject) (env : Env) : OnScreenObject × List Event :=
  if s.loadingRenderModel then (s, [])
  else
    let calls : List Event :=
      [Event.GetStringTrackedDeviceProperty s.idx,
       Event.LoadRenderModel_Async env.renderModelName]
    let s1 : OnScreenObject :=
      { s with renderModel := env.loadRenderModel.store s.renderModel }
    if env.loadRenderModel.error = VRRenderModelError_None then
      ({ s1 with loadingRenderModel := true },
        calls ++ [Event.cout ("Loading " ++ env.renderModelName)])
    else (s1, calls)

/-- Source: `OnScreenObject::LoadTexture`, main.cc lines 117-125. `none` is the read of
`renderModel->diffuseTextureId` through a null `renderModel`. -/
def LoadTexture (s : OnScreenObject) (env : Env) : Option (OnScreenObject × List Event) :=
  if s.loadingTexture then some (s, [])
  else
    match s.renderModel with
    | none => none
    | some rm =>
      let calls : List Event := [Event.LoadTexture_Async rm.diffuseTextureId]
      let s1 : OnScreenObject :=
        { s with textureMap := env.loadTexture.store s.textureMap }
      if env.loadTexture.error = VRRenderModelError_None then
        some ({ s1 with loadingTexture := true }, calls)
      else some (s1, calls)

/-- The value of `sizeof(renderModel->rIndexData[0])`, a `uint16_t`. -/
def sizeofIndex : Nat := 2

/-- The value of `sizeof(vr::RenderModel_Vertex_t)`: position, normal, texture coordinate. -/
def sizeofVertex : Nat := 32

/-- Source: the body of the `else if` of `Draw`, main.cc lines 136-163: creation and
filling of the index buffer, the vertex buffer and the texture. `none` is a read through a
null `renderModel` or `textureMap`. -/
def uploadResources (s : OnScreenObject) (env : Env) : Option (OnScreenObject × List Event) :=
  match s.renderModel, s.textureMap with
  | some rm, some tm =>
    let elementbuffer := env.genElementbuffer % 2 ^ 32
    let mBuffer := env.genBuffer % 2 ^ 32
    let mTexture := env.genTexture % 2 ^ 32
    some ({ s with elementbuffer := elementbuffer, mBuffer := mBuffer, mTexture := mTexture },
      [Event.glGenBuffers 1,
       Event.glBindBuffer "GL_ELEMENT_ARRAY_BUFFER" elementbuffer,
       Event.glBufferData "GL_ELEMENT_ARRAY_BUFFER"
         ((rm.unTriangleCount * 3 % 2 ^ 32) * sizeofIndex % 2 ^ 64) "GL_STATIC_DRAW",
       Event.glGenBuffers 1,
       Event.glBindBuffer "GL_ARRAY_BUFFER" mBuffer,
       Event.glBufferData "GL_ARRAY_BUFFER"
         (rm.unVertexCount * sizeofVertex % 2 ^ 64) "GL_DYNAMIC_DRAW",
       Event.glGenTextures 1,
       Event.glBindTexture "GL_TEXTURE_2D" mTexture,
       Event.glTexImage2D tm.unWidth tm.unHeight,
       Event.glGenerateMipmap "GL_TEXTURE_2D",
       Event.glTexParameteri "GL_TEXTURE_WRAP_S" "GL_CLAMP_TO_EDGE",
       Event.glTexParameteri "GL_TEXTURE_WRAP_T" "GL_CLAMP_TO_EDGE",
       Event.glTexParameteri "GL_TEXTURE_MAG_FILTER" "GL_LINEAR",
       Event.glTexParameteri "GL_TEXTURE_MIN_FILTER" "GL_LINEAR_MIPMAP_LINEAR",
       Event.glGetFloatv "GL_MAX_TEXTURE_MAX_ANISOTROPY_EXT",
       Event.glTexParameterf "GL_TEXTURE_MAX_ANISOTROPY_EXT" env.fLargest,
       Event.glBindTexture "GL_TEXTURE_2D" 0])
  | _, _ => none

/-- Source: the tail of `Draw`, main.cc lines 167-199: uniforms, bindings, attribute
pointers and the indexed draw. The matrix passed to `glUniformMatrix4fv` is computed by
`math_3d.h` from the pose alone (`m4_mul(matrix34_to_mat4(pose), m4_scaling(vec3(1,1,1)))`);
the event records that pose. `none` is a read through a null `renderModel`. -/
def drawCalls (s : OnScreenObject) (appshader : Nat) (pose : TrackedDevicePose_t)
    (env : Env) : Option (List Event) :=
  match s.renderModel with
  | none => none
  | some rm =>
    some
      ([Event.glGetUniformLocation appshader "model",
        Event.glGetUniformLocation appshader "uniformColor",
        Event.glUniformMatrix4fv env.modelLoc pose.mDeviceToAbsoluteTracking,
        Event.glUniform4f env.colorLoc 1 1 1 1,
        Event.glBindBuffer "GL_ELEMENT_ARRAY_BUFFER" s.elementbuffer,
        Event.glBindBuffer "GL_ARRAY_BUFFER" s.mBuffer,
        Event.glGetAttribLocation appshader "in_Normal",
        Event.glGetAttribLocation appshader "aPos",
        Event.glGetAttribLocation appshader "in_TexCoord",
        Event.glEnableVertexAttribArray env.texLoc,
        Event.glVertexAttribPointer env.aPosLoc 3 sizeofVertex 0]
      ++ (if env.aNormLoc ≠ -1 then
            [Event.glVertexAttribPointer env.aNormLoc 3 sizeofVertex 12]
          else [])
      ++ [Event.glVertexAttribPointer env.texLoc 2 sizeofVertex 24,
          Event.glGetUniformLocation appshader "mytexture",
          Event.glUniform1i env.textureLoc 0,
          Event.glActiveTexture "GL_TEXTURE0",
          Event.glBindTexture "GL_TEXTURE_2D" s.mTexture,
          Event.glDrawElements (rm.unTriangleCount * 3 % 2 ^ 32)])

/-- Source: `OnScreenObject::Draw`, main.cc lines 127-204. Returns the object after the
call and the calls made, in order; `none` is a null-pointer read. -/
def Draw (s : OnScreenObject) (appshader : Nat) (pose : TrackedDevicePose_t) (env : Env) :
    Option (OnScreenObject × List Event) :=
  if s.renderModel = none then some (LoadRenderModel s env)
  else if s.textureMap = none ∧ s.renderModel ≠ none then LoadTexture s env
  else
    match (if s.mBuffer = GLuint_MAX ∧ s.renderModel ≠ none then uploadResources s env
           else some (s, [])) with
    | none => none
    | some (s1, created) =>
      match drawCalls s1 appshader pose env with
      | none => none
      | some drawn => some (s1, created ++ drawn)

/-- Successive `Draw` calls on one object, oldest first, with the calls they make. -/
def drawRun (appshader : Nat) :
    OnScreenObject → List (TrackedDevicePose_t × Env) → Option (OnScreenObject × List Event)
  | s, [] => some (s, [])
  | s, (pose, env) :: rest =>
    match Draw s appshader pose env with
    | none => none
    | some (s1, evs) =>
      match drawRun appshader s1 rest with
      | none => none
      | some (s2, evs2) => some (s2, evs ++ evs2)

/-! ## The load states of the specification -/

/-- The load states named by the specification (section 3, `meshState`). -/
inductive MeshState where
  | Unrequested
  | RequestingMesh
  | MeshReady
  | RequestingTexture
  | TextureReady
  | Uploaded
  | Failed
deriving DecidableEq

/-- Position along `Unrequested < RequestingMesh < MeshReady < RequestingTexture <
TextureReady < Uploaded`; `Failed` is placed after all of them. -/
def MeshState.rank : MeshState → Nat
  | .Unrequested => 0
  | .RequestingMesh => 1
  | .MeshReady => 2
  | .RequestingTexture => 3
  | .TextureReady => 4
  | .Uploaded => 5
  | .Failed => 6

/-- The specification's `meshState`, read off the members of `OnScreenObject`:
`loadingRenderModel` and `loadingTexture` mark a request as made, a non-null `renderModel`
(`textureMap`) is an available mesh (texture), and `mBuffer` leaves its initial `(GLuint)-1`
when the GPU buffers are created. The struct has no member that records a failed load, so no
valuation of the members is read as `Failed`. -/
def meshState (s : OnScreenObject) : MeshState :=
  match s.renderModel with
  | none => if s.loadingRenderModel then .RequestingMesh else .Unrequested
  | some _ =>
    match s.textureMap with
    | none => if s.loadingTexture then .RequestingTexture else .MeshReady
    | some _ => if s.mBuffer = GLuint_MAX then .TextureReady else .Uploaded

/-! ## The per-frame device loop of `main` -/

/-- What the runtime and OpenGL answer for one device index during one frame: the entry
`poses[i]`, the result of `GetTrackedDeviceClass(i)`, and the answers to `objs[i].Draw`. -/
structure SlotInput where
  pose : TrackedDevicePose_t
  clss : ETrackedDeviceClass
  env : Env

/-- A call made by the frame loop: the pose query, or a call made for device index `i`. -/
inductive FrameEvent where
  | GetDeviceToAbsoluteTrackingPose
  | device (i : Nat) (e : Event)

/-- The device index a call was made for, if any. -/
def FrameEvent.index : FrameEvent → Option Nat
  | .GetDeviceToAbsoluteTrackingPose => none
  | .device i _ => some i

/-- The variables of `main` that the device loop reads and writes: the array `objs`, the
camera anchor `look_at`, and the calls made so far. -/
structure FrameState where
  objs : Nat → OnScreenObject
  look_at : vec3_t
  trace : List FrameEvent

/-- Source: the right-hand sides of the three assignments to `look_at`, main.cc lines
335-337: the entries `m[0][3]`, `m[1][3]`, `m[2][3]` of the pose matrix. -/
def translation (pose : TrackedDevicePose_t) : vec3_t :=
  { x := pose.mDeviceToAbsoluteTracking.m 0 3
    y := pose.mDeviceToAbsoluteTracking.m 1 3
    z := pose.mDeviceToAbsoluteTracking.m 2 3 }

/-- A device whose pose is valid this frame and whose class is not `TrackingReference`. -/
def anchorCandidate (d : SlotInput) : Bool :=
  d.pose.bPoseIsValid &&
    decide (d.clss ≠ ETrackedDeviceClass.TrackedDeviceClass_TrackingReference)

/-- The calls of a trace that were made for device index `i`. -/
def callsFor (i : Nat) (trace : List FrameEvent) : List FrameEvent :=
  trace.filter (fun e => decide (e.index = some i))

/-- Source: the body of the device loop for index `i`, main.cc lines 328-338. -/
def deviceStep (appshader : Nat) (input : Nat → SlotInput) (i : Nat) (st : FrameState) :
    Option FrameState :=
  if (input i).pose.bPoseIsValid = false then some st
  else
    match Draw (st.objs i) appshader (input i).pose (input i).env with
    | none => none
    | some (o, evs) =>
      let trace := st.trace ++ evs.map (FrameEvent.device i)
        ++ [FrameEvent.device i Event.GetTrackedDeviceClass]
      let objs := Function.update st.objs i o
      if (input i).clss ≠ ETrackedDeviceClass.TrackedDeviceClass_TrackingReference
          ∧ st.look_at.x = 0 ∧ st.look_at.y = 0 ∧ st.look_at.y = 0 then
        some { objs := objs, look_at := translation (input i).pose, trace := trace }
      else some { objs := objs, look_at := st.look_at, trace := trace }

/-- Source: `for(size_t i = 0; i < count; i++)`, main.cc line 327, for the first `count`
indices in ascending order (`count` is `vr::k_unMaxTrackedDeviceCount` in `main`). -/
def deviceLoop (appshader : Nat) (input : Nat → SlotInput) : Nat → FrameState → Option FrameState
  | 0, st => some st
  | n + 1, st =>
    match deviceLoop appshader input n st with
    | none => none
    | some st1 => deviceStep appshader input n st1

/-- Source: the device part of one iteration of the `while(!done)` loop, main.cc lines
325-339: the pose query, then the device loop. The rest of the iteration (input events,
camera matrices, framebuffer calls) reads `look_at` and writes neither `objs` nor
`look_at`. -/
def frame (appshader count : Nat) (input : Nat → SlotInput) (st : FrameState) :
    Option FrameState :=
  deviceLoop appshader input count
    { st with trace := st.trace ++ [FrameEvent.GetDeviceToAbsoluteTrackingPose] }

/-- Successive frames, oldest first. -/
def runFrames (appshader count : Nat) : FrameState → List (Nat → SlotInput) → Option FrameState
  | st, [] => some st
  | st, input :: rest =>
    match frame appshader count input st with
    | none => none
    | some st1 => runFrames appshader count st1 rest

/-- The state `main` enters its loop with: every `objs[i]` freshly constructed with
`idx = i`, `look_at = {}`, no call made. -/
def initialState : FrameState :=
  { objs := fun i => { idx := (i : Int) }
    look_at := { x := 0, y := 0, z := 0 }
    trace := [] }

/-! ## Concrete inputs on which the definitions are evaluated -/

/-- A pose without rotation that places the device at `(x, y, z)`. -/
def poseAt (valid : Bool) (x y z : ℚ) : TrackedDevicePose_t :=
  { mDeviceToAbsoluteTracking :=
      { m := fun i j =>
          if j.val = 3 then (if i.val = 0 then x else if i.val = 1 then y else z)
          else if i.val = j.val then 1 else 0 }
    bPoseIsValid := valid }

/-- A valid pose: no rotation, the device at `(1, 2, 3)`. -/
def examplePose : TrackedDevicePose_t := poseAt true 1 2 3

/-- A mesh of 24 vertices and 12 triangles whose texture has id 7. -/
def exampleModel : RenderModel_t :=
  { unVertexCount := 24, unTriangleCount := 12, diffuseTextureId := 7 }

/-- A 256 by 256 texture. -/
def exampleTexture : RenderModel_TextureMap_t :=
  { unWidth := 256, unHeight := 256 }

/-- The loader answers error code 100 to both requests and stores nothing; OpenGL hands out
the names 11, 12 and 13. -/
def envNotReady : Env :=
  { renderModelName := "generic_hmd"
    loadRenderModel := { error := 100, written := none }
    loadTexture := { error := 100, written := none }
    genElementbuffer := 11
    genBuffer := 12
    genTexture := 13
    fLargest := 16
    modelLoc := 0
    colorLoc := 1
    aNormLoc := 2
    aPosLoc := 3
    texLoc := 4
    textureLoc := 5 }

/-- The mesh request succeeds: `VRRenderModelError_None` and a mesh. -/
def envMeshOk : Env :=
  { envNotReady with loadRenderModel := { error := 0, written := some (some exampleModel) } }

/-- The texture request fails: error code 400, no texture stored. -/
def envTextureFail : Env :=
  { envNotReady with loadTexture := { error := 400, written := none } }

/-- The texture request succeeds: `VRRenderModelError_None` and a texture. -/
def envTextureOk : Env :=
  { envNotReady with loadTexture := { error := 0, written := some (some exampleTexture) } }

/-- A frame in which device 0 is a base station with a valid pose at `(9, 9, 9)`, device 1
is a headset with a valid pose at `(x, y, z)`, and every other pose is invalid. -/
def frameHeadsetAt (x y z : ℚ) : Nat → SlotInput := fun i =>
  if i = 0 then
    { pose := poseAt true 9 9 9
      clss := ETrackedDeviceClass.TrackedDeviceClass_TrackingReference
      env := envNotReady }
  else if i = 1 then
    { pose := poseAt true x y z
      clss := ETrackedDeviceClass.TrackedDeviceClass_HMD
      env := envNotReady }
  else
    { pose := poseAt false 0 0 0
      clss := ETrackedDeviceClass.TrackedDeviceClass_Invalid
      env := envMeshOk }

/-- A frame in which only the base station, device 0, has a valid pose. -/
def frameNoHeadset : Nat → SlotInput := fun i =>
  if i = 0 then
    { pose := poseAt true 9 9 9
      clss := ETrackedDeviceClass.TrackedDeviceClass_TrackingReference
      env := envNotReady }
  else
    { pose := poseAt false 4 5 6
      clss := ETrackedDeviceClass.TrackedDeviceClass_HMD
      env := envMeshOk }

/-- The mesh request is answered `VRRenderModelError_None` and no mesh is stored. -/
def envMeshNoneEmpty : Env :=
  { envNotReady with loadRenderModel := { error := 0, written := none } }

/-- Slot 1 with its mesh request flagged and no mesh stored, as `Draw` leaves a fresh
slot 1 when the mesh request is answered `VRRenderModelError_None` with nothing stored. -/
def slotMeshPending : OnScreenObject :=
  { loadingRenderModel := true, idx := 1 }

/-- Slot 1 after a successful mesh response. -/
def slotMeshReady : OnScreenObject :=
  { loadingRenderModel := true, renderModel := some exampleModel, idx := 1 }

/-- Slot 1 after successful mesh and texture responses, before any GPU call. -/
def slotTextureReady : OnScreenObject :=
  { loadingRenderModel := true, loadingTexture := true, renderModel := some exampleModel,
    textureMap := some exampleTexture, idx := 1 }

/-- Slot 1 after its GPU resources have been created with the names 11, 12 and 13. -/
def slotUploaded : OnScreenObject :=
  { slotTextureReady with elementbuffer := 11, mBuffer := 12, mTexture := 13 }

/-! ## Theorems: camera angle helpers -/

theorem tdiv_num_den_of_nonneg (q : ℚ) (h : 0 ≤ q) : Int.tdiv q.num q.den = ⌊q⌋ := by
  rw [Rat.floor_def]
  exact Int.tdiv_eq_ediv (Rat.num_nonneg.mpr h) (Int.ofNat_nonneg _)

theorem tdiv_num_den_of_neg (q : ℚ) (h : q < 0) : Int.tdiv q.num q.den = ⌈q⌉ := by
  have h1 : Int.tdiv (-q).num (-q).den = ⌊-q⌋ :=
    tdiv_num_den_of_nonneg (-q) (by linarith)
  rw [Rat.num_neg_eq_neg_num, Rat.den_neg_eq_den, Int.neg_tdiv, Int.floor_neg] at h1
  linarith

theorem checkedInt_of_mem (z : Int) (h1 : -2147483648 ≤ z) (h2 : z ≤ 2147483647) :
    checkedInt z = some z := by
  simp [checkedInt, INT_MIN, INT_MAX, h1, h2]

/-- On a non-negative quotient the subtracted multiple is the floor of the quotient. -/
theorem clampYaw_of_nonneg (y : ℚ) (h0 : 0 ≤ (y + 180) / 360)
    (hhi : (y + 180) / 360 < 2147483648) :
    clampYaw y = some (y - ((⌊(y + 180) / 360⌋ : Int) : ℚ) * 360) := by
  have hfl0 : 0 ≤ ⌊(y + 180) / 360⌋ := Int.floor_nonneg.mpr h0
  have hfl1 : ⌊(y + 180) / 360⌋ < 2147483648 := by
    have : ((⌊(y + 180) / 360⌋ : Int) : ℚ) < ((2147483648 : Int) : ℚ) := by
      have := Int.floor_le ((y + 180) / 360)
      push_cast
      linarith
    exact_mod_cast this
  have hneg : ¬ ((y + 180) / 360 < 0) := not_lt.mpr h0
  simp only [clampYaw, floatToInt, tdiv_num_den_of_nonneg _ h0]
  rw [checkedInt_of_mem _ (by omega) (by omega)]
  simp only [hneg, if_false, sub_zero]
  rw [checkedInt_of_mem _ (by omega) (by omega)]

/-- On a negative quotient the subtracted multiple is the ceiling of the quotient less one. -/
theorem clampYaw_of_neg (y : ℚ) (hneg : (y + 180) / 360 < 0)
    (hlo : (-2147483648 : ℚ) < (y + 180) / 360) :
    clampYaw y = some (y - (((⌈(y + 180) / 360⌉ - 1 : Int)) : ℚ) * 360) := by
  have hc0 : ⌈(y + 180) / 360⌉ ≤ 0 := Int.ceil_le.mpr (by push_cast; linarith)
  have hc1 : -2147483648 < ⌈(y + 180) / 360⌉ := by
    have : ((-2147483648 : Int) : ℚ) < ((⌈(y + 180) / 360⌉ : Int) : ℚ) := by
      have := Int.le_ceil ((y + 180) / 360)
      push_cast
      linarith
    exact_mod_cast this
  simp only [clampYaw, floatToInt, tdiv_num_den_of_neg _ hneg]
  rw [checkedInt_of_mem _ (by omega) (by omega)]
  simp only [hneg, if_true]
  rw [checkedInt_of_mem _ (by omega) (by omega)]

/-- In its domain `clampYaw` returns a value of the closed interval from -180 to 180. -/
theorem clampYaw_mem_Icc (y : ℚ) (h : yawInIntRange y) :
    ∃ r, clampYaw y = some r ∧ -180 ≤ r ∧ r ≤ 180 := by
  obtain ⟨hlo, hhi⟩ := h
  by_cases hneg : (y + 180) / 360 < 0
  · refine ⟨_, clampYaw_of_neg y hneg hlo, ?_, ?_⟩
    · have h1 := Int.ceil_lt_add_one ((y + 180) / 360)
      push_cast
      linarith
    · have h1 := Int.le_ceil ((y + 180) / 360)
      push_cast
      linarith
  · have h0 : 0 ≤ (y + 180) / 360 := not_lt.mp hneg
    refine ⟨_, clampYaw_of_nonneg y h0 hhi, ?_, ?_⟩
    · have h1 := Int.floor_le ((y + 180) / 360)
      linarith
    · have h1 := Int.lt_floor_add_one ((y + 180) / 360)
      linarith

/-- One mouse-motion event keeps a yaw of the closed interval inside it, for every value
`event.motion.x` of a 32-bit integer. -/
theorem yawUpdate_mem_Icc (yaw : ℚ) (mx : Int) (h1 : -180 ≤ yaw) (h2 : yaw ≤ 180)
    (hx1 : -2147483648 ≤ mx) (hx2 : mx ≤ 2147483647) :
    ∃ r, yawUpdate yaw mx = some r ∧ -180 ≤ r ∧ r ≤ 180 := by
  have c1 : ((-2147483648 : Int) : ℚ) ≤ (mx : ℚ) := by exact_mod_cast hx1
  have c2 : (mx : ℚ) ≤ ((2147483647 : Int) : ℚ) := by exact_mod_cast hx2
  push_cast at c1 c2
  have hctr : (CTR_X : ℚ) = 1280 := by
    have : CTR_X = 1280 := by decide
    rw [this]; norm_num
  unfold yawUpdate
  apply clampYaw_mem_Icc
  simp only [yawInIntRange, sensitivity, hctr]
  constructor
  · rw [lt_div_iff₀ (by norm_num)]
    linarith
  · rw [div_lt_iff₀ (by norm_num)]
    linarith

theorem accumulateYaw_mem_Icc (mxs : List Int) :
    ∀ yaw : ℚ, -180 ≤ yaw → yaw ≤ 180 →
      (∀ mx ∈ mxs, -2147483648 ≤ mx ∧ mx ≤ 2147483647) →
      ∃ r, accumulateYaw yaw mxs = some r ∧ -180 ≤ r ∧ r ≤ 180 := by
  induction mxs with
  | nil =>
    intro yaw h1 h2 _
    exact ⟨yaw, rfl, h1, h2⟩
  | cons mx rest ih =>
    intro yaw h1 h2 hall
    obtain ⟨r, hr, hr1, hr2⟩ :=
      yawUpdate_mem_Icc yaw mx h1 h2 (hall mx (List.mem_cons_self _ _)).1
        (hall mx (List.mem_cons_self _ _)).2
    have hrest : ∀ m ∈ rest, -2147483648 ≤ m ∧ m ≤ 2147483647 :=
      fun m hm => hall m (List.mem_cons_of_mem _ hm)
    simp only [accumulateYaw, hr]
    exact ih r hr1 hr2 hrest

/-- C9: for every pitch `p`, taken as an exact rational, `clampPitch p` lies in the closed
interval from -89 to 89. -/
theorem clampPitch_mem_Icc (p : ℚ) : -89 ≤ clampPitch p ∧ clampPitch p ≤ 89 := by
  unfold clampPitch
  split_ifs with h1 h2
  · norm_num
  · norm_num
  · exact ⟨not_lt.mp h2, not_lt.mp h1⟩

/-- C8, as stated, fails at `y = 180`: the quotient `(180 + 180) / 360 = 1` fits an `int`,
and `clampYaw` returns `-180`, which is not strictly above `-180`. -/
theorem clampYaw_returns_minus_180 :
    yawInIntRange 180 ∧ clampYaw 180 = some (-180) ∧ ¬ ((-180 : ℚ) < -180) := by
  refine ⟨by norm_num [yawInIntRange], ?_, by norm_num⟩
  rw [clampYaw_of_nonneg 180 (by norm_num) (by norm_num)]
  norm_num

/-- C8, amended: for every yaw `y` on which the `int` arithmetic of `clampYaw` is defined,
`clampYaw y` is defined and lies in the closed interval from -180 to 180; and a yaw that
starts in that interval stays in it under every sequence of mouse-motion updates
`yaw = clampYaw(yaw + sensitivity * (event.motion.x - CTR_X))` whose `event.motion.x` are
32-bit integers, each update being defined. -/
theorem clampYaw_closed_range :
    (∀ y : ℚ, yawInIntRange y → ∃ r, clampYaw y = some r ∧ -180 ≤ r ∧ r ≤ 180) ∧
    (∀ (yaw : ℚ) (mxs : List Int), -180 ≤ yaw → yaw ≤ 180 →
      (∀ mx ∈ mxs, -2147483648 ≤ mx ∧ mx ≤ 2147483647) →
      ∃ r, accumulateYaw yaw mxs = some r ∧ -180 ≤ r ∧ r ≤ 180) :=
  ⟨clampYaw_mem_Icc, fun yaw mxs h1 h2 h => accumulateYaw_mem_Icc mxs yaw h1 h2 h⟩

/-- The amended C8 at `y = -540` and at two mouse events from the initial yaw `0`. -/
theorem clampYaw_closed_range_witness :
    yawInIntRange (-540) ∧
    (∃ r, clampYaw (-540) = some r ∧ -180 ≤ r ∧ r ≤ 180) ∧
    (∃ r, accumulateYaw 0 [5000, -300] = some r ∧ -180 ≤ r ∧ r ≤ 180) :=
  ⟨by norm_num [yawInIntRange],
   clampYaw_closed_range.1 (-540) (by norm_num [yawInIntRange]),
   clampYaw_closed_range.2 0 [5000, -300] (by norm_num) (by norm_num)
     (by
       intro mx hmx
       simp only [List.mem_cons, List.mem_singleton, List.not_mem_nil, or_false] at hmx
       rcases hmx with h | h <;> subst h <;> decide)⟩

theorem meshState_ne_Failed (s : OnScreenObject) : meshState s ≠ MeshState.Failed := by
  unfold meshState
  cases s.renderModel <;> cases s.textureMap <;> simp <;> split_ifs <;> simp

theorem Draw_of_renderModel_none (s : OnScreenObject) (a : Nat) (pose : TrackedDevicePose_t)
    (env : Env) (h : s.renderModel = none) :
    Draw s a pose env = some (LoadRenderModel s env) := by
  simp [Draw, h]

theorem Draw_of_textureMap_none (s : OnScreenObject) (a : Nat) (pose : TrackedDevicePose_t)
    (env : Env) (rm : RenderModel_t) (h1 : s.renderModel = some rm) (h2 : s.textureMap = none) :
    Draw s a pose env =
      if s.loadingTexture then some (s, [])
      else if env.loadTexture.error = VRRenderModelError_None then
        some ({ s with textureMap := env.loadTexture.store none, loadingTexture := true },
          [Event.LoadTexture_Async rm.diffuseTextureId])
      else some ({ s with textureMap := env.loadTexture.store none },
          [Event.LoadTexture_Async rm.diffuseTextureId]) := by
  simp only [Draw, h1, h2, LoadTexture]
  simp

/-- `Draw` never reads through a null pointer. -/
theorem Draw_total (s : OnScreenObject) (a : Nat) (pose : TrackedDevicePose_t) (env : Env) :
    ∃ r, Draw s a pose env = some r := by
  rcases hrm : s.renderModel with _ | rm
  · exact ⟨_, Draw_of_renderModel_none s a pose env hrm⟩
  · rcases htm : s.textureMap with _ | tm
    · rw [Draw_of_textureMap_none s a pose env rm hrm htm]
      split_ifs <;> exact ⟨_, rfl⟩
    · by_cases hb : s.mBuffer = GLuint_MAX
      · simp [Draw, hrm, htm, hb, uploadResources, drawCalls]
      · simp [Draw, hrm, htm, hb, drawCalls]

theorem two_le_rank_of_renderModel (s : OnScreenObject) (rm : RenderModel_t)
    (h : s.renderModel = some rm) : 2 ≤ (meshState s).rank := by
  unfold meshState
  rw [h]
  cases s.textureMap with
  | none => dsimp only; split_ifs <;> decide
  | some tm => dsimp only; split_ifs <;> decide

theorem four_le_rank_of_textureMap (s : OnScreenObject) (rm : RenderModel_t)
    (tm : RenderModel_TextureMap_t) (h1 : s.renderModel = some rm)
    (h2 : s.textureMap = some tm) : 4 ≤ (meshState s).rank := by
  unfold meshState
  rw [h1, h2]
  dsimp only
  split_ifs <;> decide

/-- The tail of `Draw` on an object with a mesh: only OpenGL calls, none of them creating
an object name, one of them `glDrawElements`. -/
theorem drawCalls_of_renderModel (s : OnScreenObject) (a : Nat) (pose : TrackedDevicePose_t)
    (env : Env) (rm : RenderModel_t) (hrm : s.renderModel = some rm) :
    ∃ evs, drawCalls s a pose env = some evs ∧ evs.all Event.isGL = true ∧
      evs.any Event.isGen = false ∧ evs.any Event.isDrawElements = true := by
  unfold drawCalls
  rw [hrm]
  by_cases hn : env.aNormLoc ≠ -1
  · rw [if_pos hn]
    exact ⟨_, rfl, rfl, rfl, rfl⟩
  · rw [if_neg hn]
    exact ⟨_, rfl, rfl, rfl, rfl⟩

/-- The resource creation of `Draw` on an object with mesh and texture: the three ids are
replaced by the names OpenGL hands out; only OpenGL calls, some of them creating names. -/
theorem uploadResources_of_loaded (s : OnScreenObject) (env : Env) (rm : RenderModel_t)
    (tm : RenderModel_TextureMap_t) (hrm : s.renderModel = some rm)
    (htm : s.textureMap = some tm) :
    ∃ evs, uploadResources s env =
        some ({ s with elementbuffer := env.genElementbuffer % 2 ^ 32,
                       mBuffer := env.genBuffer % 2 ^ 32,
                       mTexture := env.genTexture % 2 ^ 32 }, evs) ∧
      evs.all Event.isGL = true ∧ evs.any Event.isGen = true := by
  unfold uploadResources
  rw [hrm, htm]
  exact ⟨_, rfl, rfl, rfl⟩

/-- `Draw` on an object whose mesh and texture are present and whose buffers exist: the
object is left as it is, and the calls are the draw calls. -/
theorem Draw_of_uploaded (s : OnScreenObject) (a : Nat) (pose : TrackedDevicePose_t)
    (env : Env) (rm : RenderModel_t) (tm : RenderModel_TextureMap_t)
    (hrm : s.renderModel = some rm) (htm : s.textureMap = some tm)
    (hb : s.mBuffer ≠ GLuint_MAX) :
    ∃ evs, Draw s a pose env = some (s, evs) ∧ evs.all Event.isGL = true ∧
      evs.any Event.isGen = false ∧ evs.any Event.isDrawElements = true := by
  obtain ⟨evs, h1, h2, h3, h4⟩ := drawCalls_of_renderModel s a pose env rm hrm
  refine ⟨evs, ?_, h2, h3, h4⟩
  have hn1 : ¬ s.renderModel = none := by simp [hrm]
  have hn2 : ¬ (s.textureMap = none ∧ s.renderModel ≠ none) := by simp [htm]
  have hn3 : ¬ (s.mBuffer = GLuint_MAX ∧ s.renderModel ≠ none) := fun h => hb h.1
  unfold Draw
  rw [if_neg hn1, if_neg hn2, if_neg hn3]
  dsimp only
  rw [h1]
  rfl

/-- `Draw` on an object whose mesh and texture are present and whose `mBuffer` is still
`(GLuint)-1`: the resources are created and the object is drawn in the same call. -/
theorem Draw_of_texture_ready (s : OnScreenObject) (a : Nat) (pose : TrackedDevicePose_t)
    (env : Env) (rm : RenderModel_t) (tm : RenderModel_TextureMap_t)
    (hrm : s.renderModel = some rm) (htm : s.textureMap = some tm)
    (hb : s.mBuffer = GLuint_MAX) :
    ∃ evs, Draw s a pose env =
        some ({ s with elementbuffer := env.genElementbuffer % 2 ^ 32,
                       mBuffer := env.genBuffer % 2 ^ 32,
                       mTexture := env.genTexture % 2 ^ 32 }, evs) ∧
      evs.all Event.isGL = true ∧ evs.any Event.isGen = true ∧
      evs.any Event.isDrawElements = true := by
  obtain ⟨up, h1, h2, h3⟩ := uploadResources_of_loaded s env rm tm hrm htm
  obtain ⟨dr, g1, g2, _, g4⟩ :=
    drawCalls_of_renderModel
      { s with elementbuffer := env.genElementbuffer % 2 ^ 32,
               mBuffer := env.genBuffer % 2 ^ 32,
               mTexture := env.genTexture % 2 ^ 32 } a pose env rm hrm
  refine ⟨up ++ dr, ?_, ?_, ?_, ?_⟩
  · have hc : s.mBuffer = GLuint_MAX ∧ s.renderModel ≠ none := ⟨hb, by simp [hrm]⟩
    have hn1 : ¬ s.renderModel = none := by simp [hrm]
    have hn2 : ¬ (s.textureMap = none ∧ s.renderModel ≠ none) := by simp [htm]
    unfold Draw
    rw [if_neg hn1, if_neg hn2, if_pos hc, h1]
    dsimp only
    rw [g1]
  · rw [List.all_append, h2, g2]
    rfl
  · rw [List.any_append, h3]
    rfl
  · rw [List.any_append, g4]
    simp

/-- One `Draw` call never lowers the position of the load state. -/
theorem Draw_rank_le (s : OnScreenObject) (a : Nat) (pose : TrackedDevicePose_t) (env : Env)
    (r : OnScreenObject × List Event) (h : Draw s a pose env = some r) :
    (meshState s).rank ≤ (meshState r.1).rank := by
  rcases hrm : s.renderModel with _ | rm
  · rw [Draw_of_renderModel_none s a pose env hrm] at h
    cases h
    by_cases hl : s.loadingRenderModel = true
    · simp [LoadRenderModel, hl]
    · have : (meshState s).rank = 0 := by simp [meshState, hrm, hl, MeshState.rank]
      omega
  · rcases htm : s.textureMap with _ | tm
    · rw [Draw_of_textureMap_none s a pose env rm hrm htm] at h
      by_cases hl : s.loadingTexture = true
      · simp [hl] at h
        subst h
        exact le_refl _
      · have h0 : (meshState s).rank = 2 := by simp [meshState, hrm, htm, hl, MeshState.rank]
        have h2 : 2 ≤ (meshState r.1).rank := by
          simp only [hl] at h
          split_ifs at h <;> cases h <;>
            exact two_le_rank_of_renderModel _ rm hrm
        omega
    · by_cases hb : s.mBuffer = GLuint_MAX
      · have h0 : (meshState s).rank = 4 := by simp [meshState, hrm, htm, hb, MeshState.rank]
        obtain ⟨evs, he, _⟩ := Draw_of_texture_ready s a pose env rm tm hrm htm hb
        rw [he] at h
        cases h
        rw [h0]
        exact four_le_rank_of_textureMap _ rm tm hrm htm
      · obtain ⟨evs, he, _⟩ := Draw_of_uploaded s a pose env rm tm hrm htm hb
        rw [he] at h
        cases h
        exact le_refl _

theorem meshState_eq_Uploaded (s : OnScreenObject) (h : meshState s = MeshState.Uploaded) :
    ∃ rm tm, s.renderModel = some rm ∧ s.textureMap = some tm ∧ s.mBuffer ≠ GLuint_MAX := by
  unfold meshState at h
  rcases hrm : s.renderModel with _ | rm
  · rw [hrm] at h
    dsimp only at h
    split_ifs at h
  · rcases htm : s.textureMap with _ | tm
    · rw [hrm, htm] at h
      dsimp only at h
      split_ifs at h
    · rw [hrm, htm] at h
      dsimp only at h
      split_ifs at h with hb
      exact ⟨rm, tm, rfl, rfl, hb⟩

/-- Unfolding of a run at its first call. -/
theorem drawRun_cons (a : Nat) (s : OnScreenObject) (pose : TrackedDevicePose_t) (env : Env)
    (rest : List (TrackedDevicePose_t × Env)) (r1 r2 : OnScreenObject × List Event)
    (h1 : Draw s a pose env = some r1) (h2 : drawRun a r1.1 rest = some r2) :
    drawRun a s ((pose, env) :: rest) = some (r2.1, r1.2 ++ r2.2) := by
  simp only [drawRun, h1, h2]

/-- C2: for every object, every sequence of `Draw` calls and every sequence of answers of
the runtime and of OpenGL, the run is defined and the load state at its end is not `Failed`
and is at the same or a later position of
`Unrequested < RequestingMesh < MeshReady < RequestingTexture < TextureReady < Uploaded`
than the load state at its start. -/
theorem meshState_never_moves_backwards (a : Nat) (s : OnScreenObject)
    (steps : List (TrackedDevicePose_t × Env)) :
    ∃ r, drawRun a s steps = some r ∧ meshState r.1 ≠ MeshState.Failed ∧
      (meshState s).rank ≤ (meshState r.1).rank := by
  induction steps generalizing s with
  | nil => exact ⟨(s, []), rfl, meshState_ne_Failed s, le_refl _⟩
  | cons pe rest ih =>
    obtain ⟨pose, env⟩ := pe
    obtain ⟨r1, h1⟩ := Draw_total s a pose env
    obtain ⟨r2, h2, h3, h4⟩ := ih r1.1
    refine ⟨_, drawRun_cons a s pose env rest r1 r2 h1 h2, h3, ?_⟩
    exact le_trans (Draw_rank_le s a pose env r1 h1) h4

/-- C3: for every object in load state `Uploaded`, every sequence of later `Draw` calls,
with every pose and every answer of the runtime and of OpenGL, is defined, leaves
`elementbuffer`, `mBuffer` and `mTexture` as they are, contains no `glGenBuffers` and no
`glGenTextures` call, and ends in load state `Uploaded`. -/
theorem uploaded_resources_fixed (a : Nat) (s : OnScreenObject)
    (steps : List (TrackedDevicePose_t × Env)) (h : meshState s = MeshState.Uploaded) :
    ∃ r, drawRun a s steps = some r ∧ r.1.elementbuffer = s.elementbuffer ∧
      r.1.mBuffer = s.mBuffer ∧ r.1.mTexture = s.mTexture ∧
      r.2.any Event.isGen = false ∧ meshState r.1 = MeshState.Uploaded := by
  obtain ⟨rm, tm, hrm, htm, hb⟩ := meshState_eq_Uploaded s h
  induction steps with
  | nil => exact ⟨(s, []), rfl, rfl, rfl, rfl, rfl, h⟩
  | cons pe rest ih =>
    obtain ⟨pose, env⟩ := pe
    obtain ⟨evs, h1, _, h3, _⟩ := Draw_of_uploaded s a pose env rm tm hrm htm hb
    obtain ⟨r2, g1, g2, g3, g4, g5, g6⟩ := ih
    refine ⟨_, drawRun_cons a s pose env rest (s, evs) r2 h1 g1, g2, g3, g4, ?_, g6⟩
    rw [List.any_append, h3, g5]
    rfl

/-- C3 on slot 1 with its resources created, over two further `Draw` calls, the second
with a runtime that would now answer both requests. -/
theorem uploaded_resources_fixed_witness :
    meshState slotUploaded = MeshState.Uploaded ∧
    ∃ r, drawRun 0 slotUploaded [(examplePose, envNotReady), (examplePose, envMeshOk)] = some r ∧
      r.1.elementbuffer = slotUploaded.elementbuffer ∧ r.1.mBuffer = slotUploaded.mBuffer ∧
      r.1.mTexture = slotUploaded.mTexture ∧ r.2.any Event.isGen = false ∧
      meshState r.1 = MeshState.Uploaded :=
  ⟨by decide, uploaded_resources_fixed 0 slotUploaded _ (by decide)⟩

theorem any_eq_false_of_all (p q : Event → Bool) (hpq : ∀ e, p e = true → q e = false)
    (evs : List Event) (h : evs.all p = true) : evs.any q = false := by
  induction evs with
  | nil => rfl
  | cons e rest ih =>
    rw [List.all_cons, Bool.and_eq_true] at h
    rw [List.any_cons, hpq e h.1, ih h.2]
    rfl

theorem isMeshRequest_eq_false_of_isGL (e : Event) (h : e.isGL = true) :
    e.isMeshRequest = false := by
  cases e <;> first | rfl | exact absurd h (by simp [Event.isGL])

theorem isTextureRequest_eq_false_of_isGL (e : Event) (h : e.isGL = true) :
    e.isTextureRequest = false := by
  cases e <;> first | rfl | exact absurd h (by simp [Event.isGL])

/-- A flag that is set stays set, and once it is set `Draw` makes no request of its kind. -/
theorem Draw_flags (s : OnScreenObject) (a : Nat) (pose : TrackedDevicePose_t) (env : Env)
    (r : OnScreenObject × List Event) (h : Draw s a pose env = some r) :
    (s.loadingRenderModel = true →
      r.1.loadingRenderModel = true ∧ r.2.any Event.isMeshRequest = false) ∧
    (s.loadingTexture = true →
      r.1.loadingTexture = true ∧ r.2.any Event.isTextureRequest = false) := by
  rcases hrm : s.renderModel with _ | rm
  · rw [Draw_of_renderModel_none s a pose env hrm] at h
    cases h
    unfold LoadRenderModel
    split_ifs with h1 h2
    · exact ⟨fun _ => ⟨h1, rfl⟩, fun g => ⟨g, rfl⟩⟩
    · exact ⟨fun g => absurd g h1, fun g => ⟨g, rfl⟩⟩
    · exact ⟨fun g => absurd g h1, fun g => ⟨g, rfl⟩⟩
  · rcases htm : s.textureMap with _ | tm
    · rw [Draw_of_textureMap_none s a pose env rm hrm htm] at h
      split_ifs at h with h1 h2 <;> cases h
      · exact ⟨fun g => ⟨g, rfl⟩, fun g => ⟨g, rfl⟩⟩
      · exact ⟨fun g => ⟨g, rfl⟩, fun g => absurd g h1⟩
      · exact ⟨fun g => ⟨g, rfl⟩, fun g => absurd g h1⟩
    · by_cases hb : s.mBuffer = GLuint_MAX
      · obtain ⟨evs, he, hgl, _⟩ := Draw_of_texture_ready s a pose env rm tm hrm htm hb
        rw [he] at h
        cases h
        exact ⟨fun g => ⟨g, any_eq_false_of_all _ _ isMeshRequest_eq_false_of_isGL evs hgl⟩,
          fun g => ⟨g, any_eq_false_of_all _ _ isTextureRequest_eq_false_of_isGL evs hgl⟩⟩
      · obtain ⟨evs, he, hgl, _⟩ := Draw_of_uploaded s a pose env rm tm hrm htm hb
        rw [he] at h
        cases h
        exact ⟨fun g => ⟨g, any_eq_false_of_all _ _ isMeshRequest_eq_false_of_isGL evs hgl⟩,
          fun g => ⟨g, any_eq_false_of_all _ _ isTextureRequest_eq_false_of_isGL evs hgl⟩⟩

/-- While a request is flagged and its result is missing, `Draw` does nothing. -/
theorem Draw_of_pending (s : OnScreenObject) (a : Nat) (pose : TrackedDevicePose_t)
    (env : Env)
    (h : (s.renderModel = none ∧ s.loadingRenderModel = true) ∨
      (s.renderModel ≠ none ∧ s.textureMap = none ∧ s.loadingTexture = true)) :
    Draw s a pose env = some (s, []) := by
  rcases h with ⟨h1, h2⟩ | ⟨h1, h2, h3⟩
  · rw [Draw_of_renderModel_none s a pose env h1]
    simp [LoadRenderModel, h2]
  · obtain ⟨rm, hrm⟩ := Option.ne_none_iff_exists'.mp h1
    rw [Draw_of_textureMap_none s a pose env rm hrm h2, if_pos h3]

/-- A run of `Draw` calls is guarded by the flags: if `loadingRenderModel` is set at its
start it contains no `LoadRenderModel_Async` call, if `loadingTexture` is set it contains no
`LoadTexture_Async` call, and while a request is flagged and its result is missing the run
leaves the object as it is and makes no call. -/
theorem drawRun_guarded_by_flags (a : Nat) (s : OnScreenObject)
    (steps : List (TrackedDevicePose_t × Env)) :
    ∃ r, drawRun a s steps = some r ∧
      (s.loadingRenderModel = true → r.2.any Event.isMeshRequest = false) ∧
      (s.loadingTexture = true → r.2.any Event.isTextureRequest = false) ∧
      ((s.renderModel = none ∧ s.loadingRenderModel = true) ∨
        (s.renderModel ≠ none ∧ s.textureMap = none ∧ s.loadingTexture = true) →
        r = (s, [])) := by
  induction steps generalizing s with
  | nil => exact ⟨(s, []), rfl, fun _ => rfl, fun _ => rfl, fun _ => rfl⟩
  | cons pe rest ih =>
    obtain ⟨pose, env⟩ := pe
    obtain ⟨r1, h1⟩ := Draw_total s a pose env
    obtain ⟨r2, h2, h3, h4, h5⟩ := ih r1.1
    obtain ⟨f1, f2⟩ := Draw_flags s a pose env r1 h1
    refine ⟨_, drawRun_cons a s pose env rest r1 r2 h1 h2, ?_, ?_, ?_⟩
    · intro g
      rw [List.any_append, (f1 g).2, h3 (f1 g).1]
      rfl
    · intro g
      rw [List.any_append, (f2 g).2, h4 (f2 g).1]
      rfl
    · intro g
      have e1 : r1 = (s, []) := by
        have := Draw_of_pending s a pose env g
        rw [h1] at this
        exact Option.some.inj this
      subst e1
      rw [h5 g]
      rfl

/-- `Draw` on an object without mesh and without the mesh flag, by the answer of
`LoadRenderModel_Async`. -/
theorem Draw_of_mesh_request (s : OnScreenObject) (a : Nat) (pose : TrackedDevicePose_t)
    (env : Env) (hrm : s.renderModel = none) (hfl : s.loadingRenderModel = false) :
    Draw s a pose env =
      if env.loadRenderModel.error = VRRenderModelError_None then
        some ({ s with renderModel := env.loadRenderModel.store none,
                       loadingRenderModel := true },
          [Event.GetStringTrackedDeviceProperty s.idx,
           Event.LoadRenderModel_Async env.renderModelName,
           Event.cout ("Loading " ++ env.renderModelName)])
      else
        some ({ s with renderModel := env.loadRenderModel.store none },
          [Event.GetStringTrackedDeviceProperty s.idx,
           Event.LoadRenderModel_Async env.renderModelName]) := by
  rw [Draw_of_renderModel_none s a pose env hrm]
  obtain ⟨lrm, lt, rm1, tm1, idx, mt, mb, eb⟩ := s
  simp only at hrm hfl
  subst hrm
  subst hfl
  unfold LoadRenderModel
  by_cases he : env.loadRenderModel.error = VRRenderModelError_None
  · simp [he]
  · simp [he]

/-- C6, as stated, fails on slot 1: while the runtime answers the mesh request with code
100 and stores nothing, five `Draw` calls leave the fresh slot as it is and make five
`LoadRenderModel_Async` calls; likewise five `Draw` calls on the slot holding its mesh make
five `LoadTexture_Async` calls. -/
theorem requests_repeated_until_accepted :
    (drawRun 0 { idx := 1 } (List.replicate 5 (examplePose, envNotReady))).map
        (fun r => (r.1, r.2.countP Event.isMeshRequest)) =
      some (({ idx := 1 } : OnScreenObject), 5) ∧
    (drawRun 0 slotMeshReady (List.replicate 5 (examplePose, envNotReady))).map
        (fun r => (r.1, r.2.countP Event.isTextureRequest)) = some (slotMeshReady, 5) := by
  refine ⟨by rfl, by rfl⟩

/-- C6, amended. For every object, pose, answer `env` and every sequence `rest` of later
`Draw` calls with their answers:
* a `Draw` that finds no mesh and no mesh flag makes exactly one `LoadRenderModel_Async`
  call; if the answer is `VRRenderModelError_None` the flag is set and the later calls make
  no `LoadRenderModel_Async` call at all; if the answer is another code and nothing is
  stored, the object is left as it is, so that the next `Draw` makes the request again;
* the same holds of `LoadTexture_Async` for a `Draw` that finds a mesh, no texture and no
  texture flag;
* while a request is flagged and its result is missing, `Draw` and the later calls leave
  the object as it is and make no call. -/
theorem requests_repeat_until_accepted_then_stop (a : Nat) (s : OnScreenObject)
    (pose : TrackedDevicePose_t) (env : Env) (rest : List (TrackedDevicePose_t × Env)) :
    (s.renderModel = none → s.loadingRenderModel = false →
      ∃ r1, Draw s a pose env = some r1 ∧ r1.2.countP Event.isMeshRequest = 1 ∧
        (env.loadRenderModel.error = VRRenderModelError_None →
          r1.1.loadingRenderModel = true ∧
          ∃ r2, drawRun a r1.1 rest = some r2 ∧ r2.2.any Event.isMeshRequest = false) ∧
        (env.loadRenderModel.error ≠ VRRenderModelError_None →
          env.loadRenderModel.store none = none → r1.1 = s)) ∧
    (s.renderModel ≠ none → s.textureMap = none → s.loadingTexture = false →
      ∃ r1, Draw s a pose env = some r1 ∧ r1.2.countP Event.isTextureRequest = 1 ∧
        (env.loadTexture.error = VRRenderModelError_None →
          r1.1.loadingTexture = true ∧
          ∃ r2, drawRun a r1.1 rest = some r2 ∧ r2.2.any Event.isTextureRequest = false) ∧
        (env.loadTexture.error ≠ VRRenderModelError_None →
          env.loadTexture.store none = none → r1.1 = s)) ∧
    ((s.renderModel = none ∧ s.loadingRenderModel = true) ∨
        (s.renderModel ≠ none ∧ s.textureMap = none ∧ s.loadingTexture = true) →
      drawRun a s ((pose, env) :: rest) = some (s, [])) := by
  refine ⟨fun hrm hfl => ?_, fun hrm htm hfl => ?_, fun hp => ?_⟩
  · have hd := Draw_of_mesh_request s a pose env hrm hfl
    by_cases he : env.loadRenderModel.error = VRRenderModelError_None
    · rw [if_pos he] at hd
      refine ⟨_, hd, rfl, fun _ => ⟨rfl, ?_⟩, fun hne => absurd he hne⟩
      obtain ⟨r2, g1, g2, _⟩ :=
        drawRun_guarded_by_flags a
          { s with renderModel := env.loadRenderModel.store none,
                   loadingRenderModel := true } rest
      exact ⟨r2, g1, g2 rfl⟩
    · rw [if_neg he] at hd
      refine ⟨_, hd, rfl, fun h => absurd h he, fun _ hst => ?_⟩
      obtain ⟨lrm, lt, rm1, tm1, idx, mt, mb, eb⟩ := s
      simp only at hrm
      simp only [hst, hrm]
  · obtain ⟨rm, hrm1⟩ := Option.ne_none_iff_exists'.mp hrm
    have hd := Draw_of_textureMap_none s a pose env rm hrm1 htm
    have hnf : ¬ (s.loadingTexture = true) := by simp [hfl]
    rw [if_neg hnf] at hd
    by_cases he : env.loadTexture.error = VRRenderModelError_None
    · rw [if_pos he] at hd
      refine ⟨_, hd, rfl, fun _ => ⟨rfl, ?_⟩, fun hne => absurd he hne⟩
      obtain ⟨r2, g1, _, g3, _⟩ :=
        drawRun_guarded_by_flags a
          { s with textureMap := env.loadTexture.store none, loadingTexture := true } rest
      exact ⟨r2, g1, g3 rfl⟩
    · rw [if_neg he] at hd
      refine ⟨_, hd, rfl, fun h => absurd h he, fun _ hst => ?_⟩
      obtain ⟨lrm, lt, rm1, tm1, idx, mt, mb, eb⟩ := s
      simp only at htm
      simp only [hst, htm]
  · obtain ⟨r, h1, _, _, h4⟩ := drawRun_guarded_by_flags a s ((pose, env) :: rest)
    rw [h1, h4 hp]

/-- The amended C6 on slot 1: fresh, with the mesh request answered at once and with it
answered by code 100; holding its mesh, with the texture request answered at once and
with it answered by code 100; and with the mesh request flagged and no mesh stored. -/
theorem requests_repeat_until_accepted_then_stop_witness :
    (∃ r1, Draw { idx := 1 } 0 examplePose envMeshOk = some r1 ∧
      r1.2.countP Event.isMeshRequest = 1 ∧ r1.1.loadingRenderModel = true ∧
      ∃ r2, drawRun 0 r1.1 [(examplePose, envMeshOk), (examplePose, envTextureOk)] = some r2 ∧
        r2.2.any Event.isMeshRequest = false) ∧
    (∃ r1, Draw { idx := 1 } 0 examplePose envNotReady = some r1 ∧
      r1.2.countP Event.isMeshRequest = 1 ∧ r1.1 = { idx := 1 }) ∧
    (∃ r1, Draw slotMeshReady 0 examplePose envTextureOk = some r1 ∧
      r1.2.countP Event.isTextureRequest = 1 ∧ r1.1.loadingTexture = true ∧
      ∃ r2, drawRun 0 r1.1 [(examplePose, envTextureOk)] = some r2 ∧
        r2.2.any Event.isTextureRequest = false) ∧
    (∃ r1, Draw slotMeshReady 0 examplePose envNotReady = some r1 ∧
      r1.2.countP Event.isTextureRequest = 1 ∧ r1.1 = slotMeshReady) ∧
    (Draw { idx := 1 } 0 examplePose envMeshNoneEmpty).map Prod.fst = some slotMeshPending ∧
    drawRun 0 slotMeshPending [(examplePose, envMeshOk), (examplePose, envNotReady)] =
      some (slotMeshPending, []) := by
  obtain ⟨r1, h1, h2, h3, _⟩ :=
    (requests_repeat_until_accepted_then_stop 0 { idx := 1 } examplePose envMeshOk
      [(examplePose, envMeshOk), (examplePose, envTextureOk)]).1 rfl rfl
  obtain ⟨q1, k1, k2, _, k4⟩ :=
    (requests_repeat_until_accepted_then_stop 0 { idx := 1 } examplePose envNotReady []).1
      rfl rfl
  obtain ⟨t1, m1, m2, m3, _⟩ :=
    (requests_repeat_until_accepted_then_stop 0 slotMeshReady examplePose envTextureOk
      [(examplePose, envTextureOk)]).2.1 (by decide) rfl rfl
  obtain ⟨u1, n1, n2, _, n4⟩ :=
    (requests_repeat_until_accepted_then_stop 0 slotMeshReady examplePose envNotReady
      []).2.1 (by decide) rfl rfl
  exact ⟨⟨r1, h1, h2, (h3 rfl).1, (h3 rfl).2⟩,
    ⟨q1, k1, k2, k4 (by decide) rfl⟩,
    ⟨t1, m1, m2, (m3 rfl).1, (m3 rfl).2⟩,
    ⟨u1, n1, n2, n4 (by decide) rfl⟩,
    by rfl,
    (requests_repeat_until_accepted_then_stop 0 slotMeshPending examplePose envMeshOk
      [(examplePose, envNotReady)]).2.2 (Or.inl ⟨rfl, rfl⟩)⟩

/-- C1, as stated, fails on slot 1: after a successful mesh response and a failed texture
response the slot is in load state `MeshReady`; the next `Draw` call makes a further
`LoadTexture_Async` request; and when a later request succeeds the slot is uploaded and
drawn. -/
theorem failed_texture_response_is_retried :
    (drawRun 0 { idx := 1 } [(examplePose, envMeshOk), (examplePose, envTextureFail)]).map
        Prod.fst = some slotMeshReady ∧
    meshState slotMeshReady = MeshState.MeshReady ∧
    Draw slotMeshReady 0 examplePose envTextureFail =
      some (slotMeshReady, [Event.LoadTexture_Async 7]) ∧
    (drawRun 0 slotMeshReady [(examplePose, envTextureOk), (examplePose, envNotReady)]).map
        (fun r => (r.1, r.2.any Event.isDrawElements)) = some (slotUploaded, true) := by
  refine ⟨by rfl, by decide, by rfl, by rfl⟩

/-- C1, amended: for every object that has received its mesh and has neither a texture nor
the `loadingTexture` flag, and every sequence of `Draw` calls in which `LoadTexture_Async`
answers with an error and stores no texture, each call leaves the object as it is (load
state `MeshReady`) and makes exactly one call, a repeated `LoadTexture_Async` request for
the mesh's texture id: no OpenGL call is made and the object is not drawn. -/
theorem failed_texture_responses_repeat_request (a : Nat) (s : OnScreenObject)
    (rm : RenderModel_t) (steps : List (TrackedDevicePose_t × Env))
    (hrm : s.renderModel = some rm) (htm : s.textureMap = none)
    (hlt : s.loadingTexture = false)
    (hfail : ∀ pe ∈ steps, pe.2.loadTexture.error ≠ VRRenderModelError_None ∧
      pe.2.loadTexture.store none = none) :
    drawRun a s steps =
        some (s, List.replicate steps.length (Event.LoadTexture_Async rm.diffuseTextureId)) ∧
      meshState s = MeshState.MeshReady := by
  have hms : meshState s = MeshState.MeshReady := by
    simp [meshState, hrm, htm, hlt]
  refine ⟨?_, hms⟩
  induction steps with
  | nil => rfl
  | cons pe rest ih =>
    obtain ⟨pose, env⟩ := pe
    obtain ⟨he, hst⟩ := hfail (pose, env) (List.mem_cons_self _ _)
    have h1 : Draw s a pose env = some (s, [Event.LoadTexture_Async rm.diffuseTextureId]) := by
      rw [Draw_of_textureMap_none s a pose env rm hrm htm]
      simp only [hlt, he, hst, if_false, Bool.false_eq_true]
      rw [← htm]
      obtain ⟨lrm, lt, rm1, tm1, idx, mt, mb, eb⟩ := s
      simp only at hlt
      rw [hlt]
    have h2 := ih (fun pe hpe => hfail pe (List.mem_cons_of_mem _ hpe))
    rw [drawRun_cons a s pose env rest _ _ h1 h2]
    rfl

/-- The amended C1 on slot 1 after its mesh response, over two failed texture responses. -/
theorem failed_texture_responses_repeat_request_witness :
    drawRun 0 slotMeshReady [(examplePose, envTextureFail), (examplePose, envNotReady)] =
        some (slotMeshReady, [Event.LoadTexture_Async 7, Event.LoadTexture_Async 7]) ∧
      meshState slotMeshReady = MeshState.MeshReady :=
  failed_texture_responses_repeat_request 0 slotMeshReady exampleModel
    [(examplePose, envTextureFail), (examplePose, envNotReady)] rfl rfl rfl
    (by
      intro pe hpe
      simp only [List.mem_cons, List.mem_singleton, List.not_mem_nil, or_false] at hpe
      rcases hpe with h | h <;> subst h <;> exact ⟨by decide, rfl⟩)

/-! ## Theorems: the frame loop -/

theorem callsFor_append (i : Nat) (t1 t2 : List FrameEvent) :
    callsFor i (t1 ++ t2) = callsFor i t1 ++ callsFor i t2 := by
  simp [callsFor]

theorem callsFor_device_of_ne (i j : Nat) (h : j ≠ i) (evs : List Event) :
    callsFor i (evs.map (FrameEvent.device j)) = [] := by
  induction evs with
  | nil => rfl
  | cons e rest ih =>
    simp only [callsFor, List.map_cons] at ih ⊢
    rw [List.filter_cons_of_neg (by simp [FrameEvent.index, h])]
    exact ih

/-- What one step of the device loop does to the objects, the anchor and the trace. -/
theorem deviceStep_spec (a : Nat) (input : Nat → SlotInput) (j : Nat) (st : FrameState) :
    ∃ st1, deviceStep a input j st = some st1 ∧
      (∀ i, (i ≠ j ∨ (input j).pose.bPoseIsValid = false) →
        st1.objs i = st.objs i ∧ callsFor i st1.trace = callsFor i st.trace) ∧
      (anchorCandidate (input j) = false ∨ st.look_at.x ≠ 0 ∨ st.look_at.y ≠ 0 →
        st1.look_at = st.look_at) ∧
      (anchorCandidate (input j) = true → st.look_at.x = 0 → st.look_at.y = 0 →
        st1.look_at = translation (input j).pose) := by
  unfold deviceStep
  by_cases hv : (input j).pose.bPoseIsValid = false
  · rw [if_pos hv]
    refine ⟨st, rfl, fun i _ => ⟨rfl, rfl⟩, fun _ => rfl, fun hc => ?_⟩
    simp [anchorCandidate, hv] at hc
  · rw [if_neg hv]
    obtain ⟨r, hr⟩ := Draw_total (st.objs j) a (input j).pose (input j).env
    rw [hr]
    dsimp only
    have hobj : ∀ i, (i ≠ j ∨ (input j).pose.bPoseIsValid = false) →
        Function.update st.objs j r.1 i = st.objs i ∧
        callsFor i (st.trace ++ r.2.map (FrameEvent.device j)
          ++ [FrameEvent.device j Event.GetTrackedDeviceClass]) = callsFor i st.trace := by
      intro i hi
      have hij : i ≠ j := hi.resolve_right hv
      refine ⟨Function.update_noteq hij _ _, ?_⟩
      rw [callsFor_append, callsFor_append, callsFor_device_of_ne i j (Ne.symm hij)]
      have : callsFor i [FrameEvent.device j Event.GetTrackedDeviceClass] = [] := by
        simp [callsFor, FrameEvent.index, Ne.symm hij]
      rw [this]
      simp
    have hvt : (input j).pose.bPoseIsValid = true := by simpa using hv
    split_ifs with hc
    · refine ⟨_, rfl, hobj, ?_, fun _ _ _ => rfl⟩
      rintro (h | h | h)
      · simp [anchorCandidate, hvt, hc.1] at h
      · exact absurd hc.2.1 h
      · exact absurd hc.2.2.1 h
    · refine ⟨_, rfl, hobj, fun _ => rfl, fun h1 h2 h3 => ?_⟩
      exfalso
      apply hc
      simp only [anchorCandidate, hvt, Bool.true_and, decide_eq_true_eq] at h1
      exact ⟨h1, h2, h3, h3⟩

/-- The device loop is defined; an index whose pose is invalid keeps its object and gets
no call. -/
theorem deviceLoop_frozen (a : Nat) (input : Nat → SlotInput) (i : Nat)
    (hinv : (input i).pose.bPoseIsValid = false) (n : Nat) (st : FrameState) :
    ∃ st1, deviceLoop a input n st = some st1 ∧ st1.objs i = st.objs i ∧
      callsFor i st1.trace = callsFor i st.trace := by
  induction n with
  | zero => exact ⟨st, rfl, rfl, rfl⟩
  | succ n ih =>
    obtain ⟨st1, h1, h2, h3⟩ := ih
    obtain ⟨st2, g1, g2, _⟩ := deviceStep_spec a input n st1
    refine ⟨st2, by simp only [deviceLoop, h1, g1], ?_, ?_⟩
    · rw [← h2]
      by_cases hin : i = n
      · exact (g2 i (Or.inr (hin ▸ hinv))).1
      · exact (g2 i (Or.inl hin)).1
    · rw [← h3]
      by_cases hin : i = n
      · exact (g2 i (Or.inr (hin ▸ hinv))).2
      · exact (g2 i (Or.inl hin)).2

/-- C5: for every sequence of frames in each of which the pose of index `i` is flagged
invalid, whatever the other devices do, the frames are executed without fault, the object
`objs[i]` at the end is the object at the start (flags, handles and GPU ids alike, hence
the same load state), and the calls made for index `i` are the ones made before: no
request to the runtime and no OpenGL call is made for it. -/
theorem invalid_pose_freezes_slot (a count : Nat) (i : Nat) (frames : List (Nat → SlotInput))
    (st : FrameState) (hinv : ∀ f ∈ frames, (f i).pose.bPoseIsValid = false) :
    ∃ st1, runFrames a count st frames = some st1 ∧ st1.objs i = st.objs i ∧
      callsFor i st1.trace = callsFor i st.trace ∧
      meshState (st1.objs i) = meshState (st.objs i) := by
  induction frames generalizing st with
  | nil => exact ⟨st, rfl, rfl, rfl, rfl⟩
  | cons f rest ih =>
    obtain ⟨st1, h1, h2, h3⟩ :=
      deviceLoop_frozen a f i (hinv f (List.mem_cons_self _ _)) count
        { st with trace := st.trace ++ [FrameEvent.GetDeviceToAbsoluteTrackingPose] }
    obtain ⟨st2, g1, g2, g3, _⟩ := ih st1 (fun g hg => hinv g (List.mem_cons_of_mem _ hg))
    have hq : callsFor i st1.trace = callsFor i st.trace := by
      rw [h3, callsFor_append]
      simp [callsFor, FrameEvent.index]
    have hobj : st2.objs i = st.objs i := by rw [g2, h2]
    refine ⟨st2, by simp only [runFrames, frame, h1, g1], hobj, by rw [g3, hq], by rw [hobj]⟩

/-- C5 on device 2 over two frames from the initial state: its pose is invalid in both,
while the runtime would answer its mesh request at once; it stays `Unrequested` and no
call is made for it. -/
theorem invalid_pose_freezes_slot_witness :
    (∀ f ∈ [frameNoHeadset, frameHeadsetAt 1 2 3], (f 2).pose.bPoseIsValid = false) ∧
    ∃ st1, runFrames 0 3 initialState [frameNoHeadset, frameHeadsetAt 1 2 3] = some st1 ∧
      st1.objs 2 = initialState.objs 2 ∧
      callsFor 2 st1.trace = callsFor 2 initialState.trace ∧
      meshState (st1.objs 2) = meshState (initialState.objs 2) :=
  ⟨by decide,
   invalid_pose_freezes_slot 0 3 2 [frameNoHeadset, frameHeadsetAt 1 2 3] initialState
     (by decide)⟩

/-- The device loop keeps the anchor when no index below `n` is a candidate, or when the
anchor already has a non-zero `x` or `y`. -/
theorem deviceLoop_look_at_unchanged (a : Nat) (input : Nat → SlotInput) (n : Nat)
    (st : FrameState)
    (h : (∀ j < n, anchorCandidate (input j) = false) ∨ st.look_at.x ≠ 0 ∨ st.look_at.y ≠ 0) :
    ∃ st1, deviceLoop a input n st = some st1 ∧ st1.look_at = st.look_at := by
  induction n with
  | zero => exact ⟨st, rfl, rfl⟩
  | succ n ih =>
    have h0 : (∀ j < n, anchorCandidate (input j) = false) ∨
        st.look_at.x ≠ 0 ∨ st.look_at.y ≠ 0 := by
      rcases h with h | h
      · exact Or.inl (fun j hj => h j (Nat.lt_succ_of_lt hj))
      · exact Or.inr h
    obtain ⟨st1, h1, h2⟩ := ih h0
    obtain ⟨st2, g1, _, g3, _⟩ := deviceStep_spec a input n st1
    refine ⟨st2, by simp only [deviceLoop, h1, g1], ?_⟩
    rw [← h2]
    apply g3
    rcases h with h | h
    · exact Or.inl (h n (Nat.lt_succ_self n))
    · exact Or.inr (h2 ▸ h)

/-- The device loop sets an anchor with zero `x` and `y` to the translation of the first
candidate, provided that translation has a non-zero `x` or `y`. -/
theorem deviceLoop_look_at_set (a : Nat) (input : Nat → SlotInput) (i : Nat)
    (st : FrameState) (hc : anchorCandidate (input i) = true)
    (hfirst : ∀ j < i, anchorCandidate (input j) = false)
    (hx : st.look_at.x = 0) (hy : st.look_at.y = 0)
    (hne : (translation (input i).pose).x ≠ 0 ∨ (translation (input i).pose).y ≠ 0)
    (n : Nat) (hi : i < n) :
    ∃ st1, deviceLoop a input n st = some st1 ∧
      st1.look_at = translation (input i).pose := by
  induction n with
  | zero => exact absurd hi (Nat.not_lt_zero i)
  | succ n ih =>
    by_cases hin : i < n
    · obtain ⟨st1, h1, h2⟩ := ih hin
      obtain ⟨st2, g1, _, g3, _⟩ := deviceStep_spec a input n st1
      refine ⟨st2, by simp only [deviceLoop, h1, g1], ?_⟩
      rw [← h2]
      exact g3 (Or.inr (h2 ▸ hne))
    · have hn : i = n := by omega
      subst hn
      obtain ⟨st1, h1, h2⟩ := deviceLoop_look_at_unchanged a input i st (Or.inl hfirst)
      obtain ⟨st2, g1, _, _, g4⟩ := deviceStep_spec a input i st1
      exact ⟨st2, by simp only [deviceLoop, h1, g1], g4 hc (h2 ▸ hx) (h2 ▸ hy)⟩

/-- A sequence of frames keeps the anchor when none of them has a candidate, or when the
anchor already has a non-zero `x` or `y`. -/
theorem runFrames_look_at_unchanged (a count : Nat) (frames : List (Nat → SlotInput))
    (st : FrameState)
    (h : (∀ f ∈ frames, ∀ j < count, anchorCandidate (f j) = false) ∨
      st.look_at.x ≠ 0 ∨ st.look_at.y ≠ 0) :
    ∃ st1, runFrames a count st frames = some st1 ∧ st1.look_at = st.look_at := by
  induction frames generalizing st with
  | nil => exact ⟨st, rfl, rfl⟩
  | cons f rest ih =>
    have h0 : (∀ j < count, anchorCandidate (f j) = false) ∨
        st.look_at.x ≠ 0 ∨ st.look_at.y ≠ 0 := by
      rcases h with h | h
      · exact Or.inl (h f (List.mem_cons_self _ _))
      · exact Or.inr h
    obtain ⟨st1, h1, h2⟩ :=
      deviceLoop_look_at_unchanged a f count
        { st with trace := st.trace ++ [FrameEvent.GetDeviceToAbsoluteTrackingPose] } h0
    have h2 : st1.look_at = st.look_at := h2
    have h3 : (∀ g ∈ rest, ∀ j < count, anchorCandidate (g j) = false) ∨
        st1.look_at.x ≠ 0 ∨ st1.look_at.y ≠ 0 := by
      rcases h with h | h
      · exact Or.inl (fun g hg => h g (List.mem_cons_of_mem _ hg))
      · exact Or.inr (h2 ▸ h)
    obtain ⟨st2, g1, g2⟩ := ih st1 h3
    exact ⟨st2, by simp only [runFrames, frame, h1, g1], by rw [g2, h2]⟩

theorem runFrames_append (a count : Nat) (l1 l2 : List (Nat → SlotInput)) (st st1 : FrameState)
    (h : runFrames a count st l1 = some st1) :
    runFrames a count st (l1 ++ l2) = runFrames a count st1 l2 := by
  induction l1 generalizing st with
  | nil =>
    simp only [runFrames] at h
    cases h
    rfl
  | cons f rest ih =>
    simp only [runFrames, List.cons_append] at h ⊢
    rcases hf : frame a count f st with _ | st0
    · rw [hf] at h
      cases h
    · rw [hf] at h
      exact ih st0 h

/-- C7, as stated, fails from the initial state with three devices: device 1, a headset, is
the first valid device that is not a base station, first valid in the second frame, at the
origin; `look_at` is then the origin, and in the third frame, where the headset reports
`(1, 2, 3)`, `look_at` changes to `(1, 2, 3)`. -/
theorem look_at_changes_after_origin :
    (∀ j < 3, anchorCandidate (frameNoHeadset j) = false) ∧
    anchorCandidate (frameHeadsetAt 0 0 0 0) = false ∧
    anchorCandidate (frameHeadsetAt 0 0 0 1) = true ∧
    translation (frameHeadsetAt 0 0 0 1).pose = { x := 0, y := 0, z := 0 } ∧
    (runFrames 0 3 initialState [frameNoHeadset, frameHeadsetAt 0 0 0]).map
      (fun st => st.look_at) = some { x := 0, y := 0, z := 0 } ∧
    (runFrames 0 3 initialState
        [frameNoHeadset, frameHeadsetAt 0 0 0, frameHeadsetAt 1 2 3]).map
      (fun st => st.look_at) = some { x := 1, y := 2, z := 3 } := by
  refine ⟨by decide, by decide, by decide, by rfl, by rfl, by rfl⟩

/-- The test at main.cc line 334 reads `look_at.y` twice and never `look_at.z`: an anchor
`(0, 0, 5)` is replaced by the next position reported. -/
theorem look_at_z_is_not_tested :
    (runFrames 0 3 initialState [frameHeadsetAt 0 0 5]).map
      (fun st => st.look_at) = some { x := 0, y := 0, z := 5 } ∧
    (runFrames 0 3 initialState [frameHeadsetAt 0 0 5, frameHeadsetAt 1 2 3]).map
      (fun st => st.look_at) = some { x := 1, y := 2, z := 3 } := by
  refine ⟨by rfl, by rfl⟩

/-- C7, amended: from a state whose `look_at` is `(0, 0, 0)`, through every sequence of
frames `pre` in which no device among the first `count` is valid with a class other than
`TrackingReference`, `look_at` stays `(0, 0, 0)`; and if in the next frame `f` device `i`
is the first such device and its translation column `(m[0][3], m[1][3], m[2][3])` has a
non-zero first or second component, then after `f` and after every further sequence of
frames `post`, whatever positions they report, `look_at` is that translation. -/
theorem look_at_set_once (a count : Nat) (st : FrameState)
    (pre : List (Nat → SlotInput)) (f : Nat → SlotInput) (post : List (Nat → SlotInput))
    (i : Nat) (h0 : st.look_at = { x := 0, y := 0, z := 0 })
    (hpre : ∀ g ∈ pre, ∀ j < count, anchorCandidate (g j) = false)
    (hi : i < count) (hc : anchorCandidate (f i) = true)
    (hfirst : ∀ j < i, anchorCandidate (f j) = false)
    (hne : (translation (f i).pose).x ≠ 0 ∨ (translation (f i).pose).y ≠ 0) :
    (∃ st1, runFrames a count st pre = some st1 ∧
      st1.look_at = { x := 0, y := 0, z := 0 }) ∧
    (∃ st2, runFrames a count st (pre ++ f :: post) = some st2 ∧
      st2.look_at = translation (f i).pose) := by
  obtain ⟨st1, h1, h2⟩ := runFrames_look_at_unchanged a count pre st (Or.inl hpre)
  have hz : st1.look_at = { x := 0, y := 0, z := 0 } := by rw [h2, h0]
  refine ⟨⟨st1, h1, hz⟩, ?_⟩
  obtain ⟨st2, g1, g2⟩ :=
    deviceLoop_look_at_set a f i
      { st1 with trace := st1.trace ++ [FrameEvent.GetDeviceToAbsoluteTrackingPose] }
      hc hfirst (by show st1.look_at.x = 0; rw [hz]) (by show st1.look_at.y = 0; rw [hz])
      hne count hi
  obtain ⟨st3, k1, k2⟩ :=
    runFrames_look_at_unchanged a count post st2 (Or.inr (by rw [g2]; exact hne))
  refine ⟨st3, ?_, by rw [k2, g2]⟩
  rw [runFrames_append a count pre (f :: post) st st1 h1]
  simp only [runFrames, frame, g1, k1]

/-- The amended C7 from the initial state with three devices: a frame without headset,
then the headset, device 1, at `(1, 2, 3)`, then at `(7, 7, 7)` and at the origin. -/
theorem look_at_set_once_witness :
    (∃ st1, runFrames 0 3 initialState [frameNoHeadset] = some st1 ∧
      st1.look_at = { x := 0, y := 0, z := 0 }) ∧
    (∃ st2, runFrames 0 3 initialState
        ([frameNoHeadset] ++ frameHeadsetAt 1 2 3 :: [frameHeadsetAt 7 7 7, frameHeadsetAt 0 0 0])
          = some st2 ∧
      st2.look_at = translation (frameHeadsetAt 1 2 3 1).pose) :=
  look_at_set_once 0 3 initialState [frameNoHeadset] (frameHeadsetAt 1 2 3)
    [frameHeadsetAt 7 7 7, frameHeadsetAt 0 0 0] 1 rfl (by decide) (by decide) (by decide)
    (by decide) (Or.inl (by decide))

end OpenVRVisualizer
